import Mathlib

/-!
Shallow embedding of the telemetry decoders of `kickr_gears.py`:
the gear decoder `decode_gears` and the stateful grade/lock decoder
`calc_grade`, together with the IEEE-754 `"{x:.1f}"` formatting that
the grade branch uses.

Payload bytes are elements of a `bytearray`, i.e. integers in `[0, 256)`,
modelled as `Fin 256`.  Indexing a payload can fail (Python raises
`IndexError`), so every byte read goes through `l[i]?` in the `Option`
monad: a `none` result models a raised `IndexError`.
-/

namespace KickrGears

/-- A payload byte: an element of a Python `bytearray`. -/
abbrev Byte := Fin 256

/-- The module-level persistent decoder state of `kickr_gears.py`:
`current_lock_status` and `current_grade` (both initially `None`). -/
structure GradeState where
  current_lock_status : Option Bool
  current_grade : Option String
deriving DecidableEq

/-- Round the fraction `a / b` (with `b > 0`) to the nearest natural
number, ties going to the even neighbour (round-half-even). -/
def rhe (a b : Nat) : Nat :=
  let q := a / b
  let r := a % b
  if 2 * r < b then q
  else if b < 2 * r then q + 1
  else if q % 2 = 0 then q else q + 1

/-- Fuel-bounded search for the least `j` (starting at the accumulator)
with `128 * n < 100 * 2 ^ j`. -/
def jSearch (n : Nat) : Nat → Nat → Nat
  | 0, j => j
  | fuel + 1, j => if 128 * n < 100 * 2 ^ j then j else jSearch n fuel (j + 1)

/-- Least `j` with `128 * n < 100 * 2 ^ j`, i.e. `n / 100 < 2 ^ (j - 7)`.
For `n ≥ 1` this makes `j - 7` the binade exponent of `n / 100`. -/
def jOf (n : Nat) : Nat := jSearch n 64 0

/-- Models the Python expression `f"{n / 100.0:.1f}"` for a natural `n`
(in this program `n ≤ 0xFFFF`): `n / 100.0` is the IEEE-754 binary64
value nearest to `n / 100` (53-bit significand, round-half-even), and
`.1f` rounds the exact value of that binary64 number to one decimal
digit (again half-even; for these inputs no decimal tie can occur).
The integer pipeline: with `j = jOf n` the double is `m / 2 ^ (60 - j)`
where `m` rounds `n * 2 ^ (60 - j) / 100`, and the printed digits come
from rounding `10 * m / 2 ^ (60 - j)` to an integer. -/
def pyFmt1 (n : Nat) : String :=
  let s := 60 - jOf n
  let m := rhe (n * 2 ^ s) 100
  let r := rhe (10 * m) (2 ^ s)
  toString (r / 10) ++ "." ++ toString (r % 10)

/-- The first dispatch branch of `calc_grade` (source lines 118-120):
`if len(data) >= 3 and data[0] == 0xfd and data[1] == 0x33:` update
`current_lock_status = (data[2] == 0x01)`.  Byte reads are fallible and
short-circuit exactly as in Python. -/
def lockPass (st : GradeState) (data : List Byte) : Option GradeState :=
  if 3 ≤ data.length then do
    let b0 ← data[0]?
    if b0 = (0xfd : Byte) then do
      let b1 ← data[1]?
      if b1 = (0x33 : Byte) then do
        let b2 ← data[2]?
        pure { st with current_lock_status := some (b2 == (0x01 : Byte)) }
      else pure st
    else pure st
  else pure st

/-- The second dispatch branch of `calc_grade` (source lines 122-132):
`if len(data) >= 4 and data[0] == 0xfd and data[1] == 0x34:` decode the
grade from `data[3] << 8 | data[2]`, positive when `data[3] < 0x80`,
otherwise via `0xffff - raw`, and store the formatted string. -/
def gradePass (st : GradeState) (data : List Byte) : Option GradeState :=
  if 4 ≤ data.length then do
    let b0 ← data[0]?
    if b0 = (0xfd : Byte) then do
      let b1 ← data[1]?
      if b1 = (0x34 : Byte) then do
        let b3 ← data[3]?
        let b2 ← data[2]?
        let raw := (b3.val <<< 8) ||| b2.val
        if b3.val < 0x80 then
          pure { st with current_grade := some ("+" ++ pyFmt1 raw ++ "%") }
        else
          pure { st with current_grade := some ("-" ++ pyFmt1 (0xffff - raw) ++ "%") }
      else pure st
    else pure st
  else pure st

/-- The output composition of `calc_grade` (source lines 134-146): build
the returned label from the persistent state after dispatch. -/
def render (st : GradeState) : Option String :=
  match st.current_grade with
  | some g =>
    match st.current_lock_status with
    | some l => some (g ++ " (" ++ (if l then "L" else "U") ++ ")")
    | none => some g
  | none =>
    match st.current_lock_status with
    | some l => some (if l then "L" else "U")
    | none => none

/-- The function `calc_grade(data)` of `kickr_gears.py` (lines 111-146),
with the mutable globals made explicit: it maps the prior state and the
payload to the new state and the optional returned label.  A `none`
overall result models a raised `IndexError`. -/
def calc_grade (st : GradeState) (data : List Byte) :
    Option (GradeState × Option String) := do
  let st1 ← lockPass st data
  let st2 ← gradePass st1 data
  pure (st2, render st2)

/-- The composition rule as the specification states it: grade and lock
set gives `"{grade} ({L or U})"`, only grade gives the grade string, only
lock gives `"L"` or `"U"`, neither gives nothing. -/
def composeLabel (st : GradeState) : Option String :=
  match st.current_grade, st.current_lock_status with
  | some g, some l => some (g ++ " (" ++ (if l then "L" else "U") ++ ")")
  | some g, none => some g
  | none, some l => some (if l then "L" else "U")
  | none, none => none

/-- The function `decode_gears(data)` of `kickr_gears.py` (lines 538-548):
under the guard `len(data) >= 2` it reads `data[2]` and `data[3]` (a
fallible read: `none` models a raised `IndexError`), otherwise it returns
the placeholder pair. -/
def decode_gears (data : List Byte) : Option (String × String) :=
  if 2 ≤ data.length then do
    let b2 ← data[2]?
    let b3 ← data[3]?
    pure ("Front Gear: " ++ toString (1 + b2.val), "Rear Gear : " ++ toString (1 + b3.val))
  else
    pure ("Bad Gear", "Data")

/-- One `calc_grade` call viewed as a state transformer; on the
(unreachable) error path the state is left as it was. -/
def calcStep (st : GradeState) (d : List Byte) : GradeState :=
  match calc_grade st d with
  | some (st', _) => st'
  | none => st

/-- The state after a sequence of `calc_grade` calls starting from the
initial state (both fields unset). -/
def runFrom (ps : List (List Byte)) : GradeState :=
  ps.foldl calcStep ⟨none, none⟩

/-- The lock/unlock pass written as a total state transformer: the guard
`len(data) >= 3` covers every byte it reads, so the fallible `lockPass`
agrees with this function (proved in `lockPass_eq`). -/
def lockTotal (st : GradeState) (data : List Byte) : GradeState :=
  match data with
  | a :: b :: c :: _ =>
    if a = (0xfd : Byte) ∧ b = (0x33 : Byte) then
      { st with current_lock_status := some (c == (0x01 : Byte)) }
    else st
  | _ => st

/-- The grade pass written as a total state transformer: the guard
`len(data) >= 4` covers every byte it reads, so the fallible `gradePass`
agrees with this function (proved in `gradePass_eq`). -/
def gradeTotal (st : GradeState) (data : List Byte) : GradeState :=
  match data with
  | a :: b :: c :: d :: _ =>
    if a = (0xfd : Byte) ∧ b = (0x34 : Byte) then
      if d.val < 0x80 then
        { st with current_grade := some ("+" ++ pyFmt1 ((d.val <<< 8) ||| c.val) ++ "%") }
      else
        { st with current_grade := some ("-" ++ pyFmt1 (0xffff - ((d.val <<< 8) ||| c.val)) ++ "%") }
    else st
  | _ => st

lemma lockPass_eq (st : GradeState) (data : List Byte) :
    lockPass st data = some (lockTotal st data) := by
  rcases data with _ | ⟨a, _ | ⟨b, _ | ⟨c, rest⟩⟩⟩
  · simp [lockPass, lockTotal]
  · simp [lockPass, lockTotal]
  · simp [lockPass, lockTotal]
  · by_cases ha : a = (0xfd : Byte) <;> by_cases hb : b = (0x33 : Byte) <;>
      simp [lockPass, lockTotal, ha, hb]

lemma gradePass_eq (st : GradeState) (data : List Byte) :
    gradePass st data = some (gradeTotal st data) := by
  rcases data with _ | ⟨a, _ | ⟨b, _ | ⟨c, _ | ⟨d, rest⟩⟩⟩⟩
  · simp [gradePass, gradeTotal]
  · simp [gradePass, gradeTotal]
  · simp [gradePass, gradeTotal]
  · simp [gradePass, gradeTotal]
  · by_cases ha : a = (0xfd : Byte) <;> by_cases hb : b = (0x34 : Byte) <;>
      by_cases hd : d.val < 0x80 <;>
      simp [gradePass, gradeTotal, ha, hb, hd]

lemma calc_grade_eq (st : GradeState) (data : List Byte) :
    calc_grade st data =
      some (gradeTotal (lockTotal st data) data,
            render (gradeTotal (lockTotal st data) data)) := by
  simp [calc_grade, lockPass_eq, gradePass_eq]

lemma calcStep_eq (st : GradeState) (d : List Byte) :
    calcStep st d = gradeTotal (lockTotal st d) d := by
  simp [calcStep, calc_grade_eq]

lemma lockTotal_grade (st : GradeState) (d : List Byte) :
    (lockTotal st d).current_grade = st.current_grade := by
  rcases d with _ | ⟨a, _ | ⟨b, _ | ⟨c, rest⟩⟩⟩
  · rfl
  · rfl
  · rfl
  · simp only [lockTotal]
    split <;> rfl

lemma gradeTotal_lock (st : GradeState) (d : List Byte) :
    (gradeTotal st d).current_lock_status = st.current_lock_status := by
  rcases d with _ | ⟨a, _ | ⟨b, _ | ⟨c, _ | ⟨e, rest⟩⟩⟩⟩
  · rfl
  · rfl
  · rfl
  · rfl
  · simp only [gradeTotal]
    split
    · split <;> rfl
    · rfl

lemma lockTotal_lock_none (st : GradeState) (d : List Byte)
    (h : (lockTotal st d).current_lock_status = none) :
    st.current_lock_status = none := by
  rcases d with _ | ⟨a, _ | ⟨b, _ | ⟨c, rest⟩⟩⟩
  · exact h
  · exact h
  · exact h
  · simp only [lockTotal] at h
    revert h
    split
    · intro h
      exact absurd h (by simp)
    · exact id

lemma gradeTotal_grade_none (st : GradeState) (d : List Byte)
    (h : (gradeTotal st d).current_grade = none) :
    st.current_grade = none := by
  rcases d with _ | ⟨a, _ | ⟨b, _ | ⟨c, _ | ⟨e, rest⟩⟩⟩⟩
  · exact h
  · exact h
  · exact h
  · exact h
  · simp only [gradeTotal] at h
    revert h
    split
    · split <;> (intro h; exact absurd h (by simp))
    · exact id

lemma lockTotal_eq_of_not (st : GradeState) (d : List Byte)
    (h : ¬ (d[0]? = some (0xfd : Byte) ∧ d[1]? = some (0x33 : Byte) ∧ 3 ≤ d.length)) :
    lockTotal st d = st := by
  rcases d with _ | ⟨a, _ | ⟨b, _ | ⟨c, rest⟩⟩⟩
  · rfl
  · rfl
  · rfl
  · have hne : ¬ (a = (0xfd : Byte) ∧ b = (0x33 : Byte)) := by
      rintro ⟨ha, hb⟩
      exact h ⟨by simp [ha], by simp [hb], by simp⟩
    simp [lockTotal, hne]

lemma gradeTotal_eq_of_not (st : GradeState) (d : List Byte)
    (h : ¬ (d[0]? = some (0xfd : Byte) ∧ d[1]? = some (0x34 : Byte) ∧ 4 ≤ d.length)) :
    gradeTotal st d = st := by
  rcases d with _ | ⟨a, _ | ⟨b, _ | ⟨c, _ | ⟨e, rest⟩⟩⟩⟩
  · rfl
  · rfl
  · rfl
  · rfl
  · have hne : ¬ (a = (0xfd : Byte) ∧ b = (0x34 : Byte)) := by
      rintro ⟨ha, hb⟩
      exact h ⟨by simp [ha], by simp [hb], by simp⟩
    simp [gradeTotal, hne]

lemma render_eq_composeLabel (st : GradeState) : render st = composeLabel st := by
  rcases st with ⟨l, g⟩
  cases g <;> cases l <;> rfl

lemma calcStep_grade_none (st : GradeState) (d : List Byte)
    (h : (calcStep st d).current_grade = none) : st.current_grade = none := by
  rw [calcStep_eq] at h
  have h2 := gradeTotal_grade_none _ _ h
  rwa [lockTotal_grade] at h2

lemma calcStep_lock_none (st : GradeState) (d : List Byte)
    (h : (calcStep st d).current_lock_status = none) : st.current_lock_status = none := by
  rw [calcStep_eq, gradeTotal_lock] at h
  exact lockTotal_lock_none _ _ h

lemma foldl_grade_ne_none :
    ∀ (qs : List (List Byte)) (st : GradeState), st.current_grade ≠ none →
      (qs.foldl calcStep st).current_grade ≠ none
  | [], _, h => h
  | q :: qs, st, h =>
    foldl_grade_ne_none qs _ (fun hn => h (calcStep_grade_none st q hn))

lemma foldl_lock_ne_none :
    ∀ (qs : List (List Byte)) (st : GradeState), st.current_lock_status ≠ none →
      (qs.foldl calcStep st).current_lock_status ≠ none
  | [], _, h => h
  | q :: qs, st, h =>
    foldl_lock_ne_none qs _ (fun hn => h (calcStep_lock_none st q hn))

/-- C1: every successful `calc_grade` call returns the label composed from
the full persisted state after dispatch — grade and lock set give
`"{grade} (L)"` or `"{grade} (U)"`, only grade gives the grade string,
only lock gives `"L"` or `"U"`, neither gives nothing (`composeLabel`). -/
theorem calc_grade_output_from_state (st : GradeState) (data : List Byte)
    (st' : GradeState) (out : Option String)
    (h : calc_grade st data = some (st', out)) : out = composeLabel st' := by
  rw [calc_grade_eq] at h
  simp only [Option.some.injEq, Prod.mk.injEq] at h
  rw [← h.2, ← h.1, render_eq_composeLabel]

/-- Witness for C1 at the lock-only payload `[0xFD, 0x33, 0x01]` from the
initial state: the returned `"L"` is the composition of the new state. -/
theorem calc_grade_output_from_state_witness :
    (some "L" : Option String) = composeLabel ⟨some true, none⟩ :=
  calc_grade_output_from_state ⟨none, none⟩ [0xfd, 0x33, 0x01]
    ⟨some true, none⟩ (some "L") (by decide)

/-- C2: a payload `0xFD 0x34 b2 b3 ...` with high byte `b3 ≥ 0x80` stores
as grade the string `"-" ++ pyFmt1 (0xFFFF - (b3 <<< 8 ||| b2)) ++ "%"`
(`pyFmt1 n` is Python `f"{n/100.0:.1f}"`), leaves the lock field alone,
and returns the composition of the updated state. -/
theorem calc_grade_negative_grade (st : GradeState) (b2 b3 : Byte) (rest : List Byte)
    (h : 0x80 ≤ b3.val) :
    calc_grade st ((0xfd : Byte) :: (0x34 : Byte) :: b2 :: b3 :: rest) =
      some (⟨st.current_lock_status, some ("-" ++ pyFmt1 (0xffff - ((b3.val <<< 8) ||| b2.val)) ++ "%")⟩,
            composeLabel ⟨st.current_lock_status, some ("-" ++ pyFmt1 (0xffff - ((b3.val <<< 8) ||| b2.val)) ++ "%")⟩) := by
  rw [calc_grade_eq]
  have hL : lockTotal st ((0xfd : Byte) :: (0x34 : Byte) :: b2 :: b3 :: rest) = st := by
    simp [lockTotal]
  rw [hL]
  have hG : gradeTotal st ((0xfd : Byte) :: (0x34 : Byte) :: b2 :: b3 :: rest) =
      ⟨st.current_lock_status, some ("-" ++ pyFmt1 (0xffff - ((b3.val <<< 8) ||| b2.val)) ++ "%")⟩ := by
    simp [gradeTotal, Nat.not_lt.2 h]
  rw [hG, render_eq_composeLabel]

/-- Witness for C2: from lock-unlocked state, `[0xFD, 0x34, 0x00, 0xFF]`
(raw `0xFF00`, `tmp = 255`) returns the exact formula output
`"-" ++ pyFmt1 255 ++ "% (U)" = "-2.5% (U)"`. -/
theorem calc_grade_negative_grade_witness :
    calc_grade ⟨some false, none⟩ [0xfd, 0x34, 0x00, 0xff] =
      some (⟨some false, some "-2.5%"⟩, some "-2.5% (U)") :=
  (calc_grade_negative_grade ⟨some false, none⟩ 0x00 0xff [] (by decide)).trans (by decide)

/-- C5: a payload `0xFD 0x34 b2 b3 ...` with high byte `b3 < 0x80` stores
as grade the string `"+" ++ pyFmt1 (b3 <<< 8 ||| b2) ++ "%"`, leaves the
lock field alone, and returns the composition of the updated state. -/
theorem calc_grade_positive_grade (st : GradeState) (b2 b3 : Byte) (rest : List Byte)
    (h : b3.val < 0x80) :
    calc_grade st ((0xfd : Byte) :: (0x34 : Byte) :: b2 :: b3 :: rest) =
      some (⟨st.current_lock_status, some ("+" ++ pyFmt1 ((b3.val <<< 8) ||| b2.val) ++ "%")⟩,
            composeLabel ⟨st.current_lock_status, some ("+" ++ pyFmt1 ((b3.val <<< 8) ||| b2.val) ++ "%")⟩) := by
  rw [calc_grade_eq]
  have hL : lockTotal st ((0xfd : Byte) :: (0x34 : Byte) :: b2 :: b3 :: rest) = st := by
    simp [lockTotal]
  rw [hL]
  have hG : gradeTotal st ((0xfd : Byte) :: (0x34 : Byte) :: b2 :: b3 :: rest) =
      ⟨st.current_lock_status, some ("+" ++ pyFmt1 ((b3.val <<< 8) ||| b2.val) ++ "%")⟩ := by
    simp [gradeTotal, h]
  rw [hG, render_eq_composeLabel]

/-- Witness for C5: with lock already locked, `[0xFD, 0x34, 0x50, 0x00]`
(raw `0x0050 = 80`) returns `"+0.8% (L)"`. -/
theorem calc_grade_positive_grade_witness :
    calc_grade ⟨some true, none⟩ [0xfd, 0x34, 0x50, 0x00] =
      some (⟨some true, some "+0.8%"⟩, some "+0.8% (L)") :=
  (calc_grade_positive_grade ⟨some true, none⟩ 0x50 0x00 [] (by decide)).trans (by decide)

/-- C6: a payload `0xFD 0x33 flag ...` sets the lock status to `true`
exactly when the flag byte equals `0x01`, leaves the grade alone and
returns the composition of the updated state; in particular from the
initial state `[0xFD, 0x33, 0x01]` returns `"L"`. -/
theorem calc_grade_lock_flag :
    (∀ (st : GradeState) (b2 : Byte) (rest : List Byte),
        calc_grade st ((0xfd : Byte) :: (0x33 : Byte) :: b2 :: rest) =
          some (⟨some (b2 == (0x01 : Byte)), st.current_grade⟩,
                composeLabel ⟨some (b2 == (0x01 : Byte)), st.current_grade⟩)) ∧
    calc_grade ⟨none, none⟩ [0xfd, 0x33, 0x01] = some (⟨some true, none⟩, some "L") := by
  refine ⟨fun st b2 rest => ?_, by decide⟩
  rw [calc_grade_eq]
  have hL : lockTotal st ((0xfd : Byte) :: (0x33 : Byte) :: b2 :: rest) =
      ⟨some (b2 == (0x01 : Byte)), st.current_grade⟩ := by
    simp [lockTotal]
  rw [hL]
  have hG : gradeTotal (⟨some (b2 == (0x01 : Byte)), st.current_grade⟩ : GradeState)
      ((0xfd : Byte) :: (0x33 : Byte) :: b2 :: rest) =
      ⟨some (b2 == (0x01 : Byte)), st.current_grade⟩ := by
    rcases rest with _ | ⟨e, rest⟩
    · rfl
    · simp [gradeTotal]
  rw [hG, render_eq_composeLabel]

/-- C7: fields are persistent — a `calc_grade` step never clears a set
field, a field is only changed by a payload carrying it, and over any
sequence of calls from the initial state a field that is set stays set. -/
theorem calc_grade_fields_persist :
    (∀ (st : GradeState) (d : List Byte),
        ((calcStep st d).current_grade = none → st.current_grade = none) ∧
        ((calcStep st d).current_lock_status = none → st.current_lock_status = none) ∧
        (¬ (d[0]? = some (0xfd : Byte) ∧ d[1]? = some (0x34 : Byte) ∧ 4 ≤ d.length) →
            (calcStep st d).current_grade = st.current_grade) ∧
        (¬ (d[0]? = some (0xfd : Byte) ∧ d[1]? = some (0x33 : Byte) ∧ 3 ≤ d.length) →
            (calcStep st d).current_lock_status = st.current_lock_status)) ∧
    (∀ (ps qs : List (List Byte)),
        ((runFrom ps).current_grade ≠ none → (runFrom (ps ++ qs)).current_grade ≠ none) ∧
        ((runFrom ps).current_lock_status ≠ none →
            (runFrom (ps ++ qs)).current_lock_status ≠ none)) := by
  constructor
  · intro st d
    refine ⟨calcStep_grade_none st d, calcStep_lock_none st d, fun h => ?_, fun h => ?_⟩
    · rw [calcStep_eq, gradeTotal_eq_of_not _ _ h, lockTotal_grade]
    · rw [calcStep_eq, gradeTotal_lock, lockTotal_eq_of_not _ _ h]
  · intro ps qs
    rw [runFrom, runFrom, List.foldl_append]
    exact ⟨foldl_grade_ne_none qs _, foldl_lock_ne_none qs _⟩

/-- Witness for C7: the lock set by `[0xFD, 0x33, 0x01]` survives a later
unrelated payload `[0x00, 0x00]`. -/
theorem calc_grade_fields_persist_witness :
    (runFrom ([[0xfd, 0x33, 0x01]] ++ [[0x00, 0x00]])).current_lock_status ≠ none :=
  (calc_grade_fields_persist.2 [[0xfd, 0x33, 0x01]] [[0x00, 0x00]]).2 (by decide)

/-- C8: a payload whose first two bytes are neither `0xFD 0x33` nor
`0xFD 0x34` leaves the state untouched and returns the composition of
the prior state (so nothing when both fields are unset), with no error. -/
theorem calc_grade_unknown_header (st : GradeState) (data : List Byte)
    (h33 : ¬ (data[0]? = some (0xfd : Byte) ∧ data[1]? = some (0x33 : Byte)))
    (h34 : ¬ (data[0]? = some (0xfd : Byte) ∧ data[1]? = some (0x34 : Byte))) :
    calc_grade st data = some (st, composeLabel st) := by
  rw [calc_grade_eq,
    lockTotal_eq_of_not _ _ (fun hc => h33 ⟨hc.1, hc.2.1⟩),
    gradeTotal_eq_of_not _ _ (fun hc => h34 ⟨hc.1, hc.2.1⟩),
    render_eq_composeLabel]

/-- Witness for C8: the unknown header `[0x00, 0x00]` from the initial
state is a silent no-op that returns nothing. -/
theorem calc_grade_unknown_header_witness :
    calc_grade ⟨none, none⟩ [0x00, 0x00] = some (⟨none, none⟩, none) :=
  (calc_grade_unknown_header ⟨none, none⟩ [0x00, 0x00] (by decide) (by decide)).trans
    (by decide)

/-- C10: `calc_grade` never reads out of bounds (it always returns a
value, never an `IndexError`), and a recognized header whose payload is
shorter than the branch's length guard changes nothing and returns the
label of the prior state: the guards `len >= 3` and `len >= 4` cover the
offsets each branch reads. -/
theorem calc_grade_guard_safety :
    (∀ (st : GradeState) (data : List Byte), calc_grade st data ≠ none) ∧
    (∀ (st : GradeState) (data : List Byte),
        (data[0]? = some (0xfd : Byte) ∧
          ((data[1]? = some (0x33 : Byte) ∧ data.length < 3) ∨
           (data[1]? = some (0x34 : Byte) ∧ data.length < 4))) →
        calc_grade st data = some (st, composeLabel st)) := by
  constructor
  · intro st data
    rw [calc_grade_eq]
    simp
  · rintro st data ⟨h0, h1 | h1⟩
    · rw [calc_grade_eq,
        lockTotal_eq_of_not _ _ (fun hc => absurd hc.2.2 (by omega)),
        gradeTotal_eq_of_not _ _ (fun hc => by
          rw [h1.1] at hc
          exact absurd (Option.some.inj hc.2.1) (by decide)),
        render_eq_composeLabel]
    · rw [calc_grade_eq,
        lockTotal_eq_of_not _ _ (fun hc => by
          rw [h1.1] at hc
          exact absurd (Option.some.inj hc.2.1) (by decide)),
        gradeTotal_eq_of_not _ _ (fun hc => absurd hc.2.2 (by omega)),
        render_eq_composeLabel]

/-- Witness for C10: the grade header with a one-byte body,
`[0xFD, 0x34, 0x00]`, is too short for its guard and is a no-op. -/
theorem calc_grade_guard_safety_witness :
    calc_grade ⟨none, none⟩ [0xfd, 0x34, 0x00] = some (⟨none, none⟩, none) :=
  (calc_grade_guard_safety.2 ⟨none, none⟩ [0xfd, 0x34, 0x00]
    ⟨by decide, Or.inr ⟨by decide, by decide⟩⟩).trans (by decide)

/-- C3 (divergence record): on a length-2 payload the guard `len >= 2`
passes and `decode_gears` reads `data[2]`, which is out of bounds — the
call raises `IndexError` (`none`) instead of returning the placeholder
pair. -/
theorem decode_gears_len2_index_error : decode_gears [0x00, 0x00] = none := by decide

/-- C4: a gear payload with at least 4 bytes decodes to the fixed
templates `"Front Gear: {1 + data[2]}"` and `"Rear Gear : {1 + data[3]}"`;
in particular `[0, 0, 0, 5]` gives `("Front Gear: 1", "Rear Gear : 6")`. -/
theorem decode_gears_templates :
    (∀ (b0 b1 b2 b3 : Byte) (rest : List Byte),
        decode_gears (b0 :: b1 :: b2 :: b3 :: rest) =
          some ("Front Gear: " ++ toString (1 + b2.val),
                "Rear Gear : " ++ toString (1 + b3.val))) ∧
    decode_gears [0, 0, 0, 5] = some ("Front Gear: 1", "Rear Gear : 6") := by
  refine ⟨fun b0 b1 b2 b3 rest => ?_, by decide⟩
  simp [decode_gears]

/-- C9: a gear payload with fewer than 2 bytes yields the fixed
placeholder pair `("Bad Gear", "Data")` and never raises. -/
theorem decode_gears_short (data : List Byte) (h : data.length < 2) :
    decode_gears data = some ("Bad Gear", "Data") := by
  rcases data with _ | ⟨a, _ | ⟨b, rest⟩⟩
  · rfl
  · rfl
  · exact absurd h (by simp)

/-- Witness for C9 at the empty payload. -/
theorem decode_gears_short_witness : decode_gears [] = some ("Bad Gear", "Data") :=
  decode_gears_short [] (by decide)

end KickrGears
